import Mathlib

/-!
Shallow embedding of the request-construction and response-reconciliation
layer of the `sift-science` Rust client (src/src/client.rs and the modules
it uses), together with theorems settling the frozen claims about it.

Modelling conventions:
* Rust `String`/`&str` become Lean `String`.
* `std::time::Duration` timeouts become `Nat` milliseconds.
* `std::time::SystemTime` becomes `Nat` milliseconds since `UNIX_EPOCH`
  (so `UNIX_EPOCH` itself is `0`).  `SystemTime::checked_add` succeeds
  exactly when the resulting offset is representable on the platform;
  the platform bound is threaded through as an explicit `timeMax`
  parameter (`checkedAddMillis`).
* i32/u32/u64 become `Int`/`Nat`; no claim exercises wrap-around.
* Fallible operations return `Except`.
* The generic `http_client: T` carried by `Client<T>` is passed to each
  endpoint operation as an explicit function argument (the transport);
  network effects are thereby modelled as a pure request-to-response map.
-/

/-- JSON values (`serde_json::Value`).  Numbers are modelled as integers:
every number a claim exercises is a JSON integer (status codes and
millisecond timestamps). -/
inductive Json where
  | null
  | bool (b : Bool)
  | num (n : Int)
  | str (s : String)
  | arr (elems : List Json)
  | obj (fields : List (String × Json))

/-- Error union from src/src/error.rs (`enum Error`): `Client` carries an
auth/validation failure with optional structured issues, `Request` a
non-zero remote status with message, `Server` an opaque transport/decode
failure string. -/
inductive Error where
  | Client (error : String) (description : String) (issues : Option Json)
  | Request (status : Int) (error_message : String)
  | Server (msg : String)

/-- Abuse categories from src/src/common.rs (`enum AbuseType`). -/
inductive AbuseType where
  | AccountTakeover
  | AccountAbuse
  | ContentAbuse
  | PaymentAbuse
  | PromoAbuse
deriving DecidableEq, Repr

/-- Display impl for `AbuseType` (src/src/common.rs lines 25-35): the
lowercase snake_case name of the variant. -/
def AbuseType.display : AbuseType → String
  | .AccountAbuse => "account_abuse"
  | .AccountTakeover => "account_takeover"
  | .ContentAbuse => "content_abuse"
  | .PaymentAbuse => "payment_abuse"
  | .PromoAbuse => "promo_abuse"

/-- Field lookup in a JSON object; `none` when the value is not an object
or the key is absent. -/
def Json.getField : Json → String → Option Json
  | .obj fields, key => fields.lookup key
  | _, _ => none

/-- Uppercase hexadecimal digit for `0 ≤ n < 16`. -/
def hexDigitChar (n : Nat) : Char :=
  if n < 10 then Char.ofNat (48 + n) else Char.ofNat (55 + n)

/-- Percent-encoding of a single byte, uppercase hex, as produced by the
`urlencoding` crate. -/
def percentByte (b : Nat) : String :=
  String.mk [Char.ofNat 37, hexDigitChar (b / 16 % 16), hexDigitChar (b % 16)]

/-- UTF-8 byte sequence of a Unicode code point. -/
def utf8Bytes (n : Nat) : List Nat :=
  if n < 128 then [n]
  else if n < 2048 then [192 + n / 64, 128 + n % 64]
  else if n < 65536 then [224 + n / 4096, 128 + n / 64 % 64, 128 + n % 64]
  else [240 + n / 262144, 128 + n / 4096 % 64, 128 + n / 64 % 64, 128 + n % 64]

/-- Characters the `urlencoding` crate leaves unencoded: ASCII
alphanumerics and `-`, `.`, `_`, `~`. -/
def isUrlUnreserved (c : Char) : Bool :=
  (c ≥ 'a' && c ≤ 'z') || (c ≥ 'A' && c ≤ 'Z') || (c ≥ '0' && c ≤ '9') ||
    c = '-' || c = '.' || c = '_' || c = '~'

/-- Model of `urlencoding::encode`: percent-encode every UTF-8 byte of
every character outside the unreserved set. -/
def urlencode (s : String) : String :=
  String.join (s.toList.map fun c =>
    if isUrlUnreserved c then String.mk [c]
    else String.join ((utf8Bytes c.toNat).map percentByte))

/-- Default per-call timeout (src/src/client.rs line 22,
`DEFAULT_TIMEOUT = Duration::from_secs(2)`), in milliseconds. -/
def DEFAULT_TIMEOUT : Nat := 2000

/-- Model of `UNIX_EPOCH.checked_add(Duration::from_millis(ms))`:
succeeds exactly when the offset is within the platform-representable
range `timeMax`. -/
def checkedAddMillis (timeMax ms : Nat) : Option Nat :=
  if ms ≤ timeMax then some ms else none

/-- Model of `Option::<u64>::deserialize`: JSON null is `none`, a
non-negative integer is `some`, anything else is a deserialization
error. -/
def optU64OfJson : Json → Except String (Option Nat)
  | .null => .ok none
  | .num n => if 0 ≤ n then .ok (some n.toNat) else .error "invalid value: expected u64"
  | _ => .error "invalid type: expected u64"

/-- Model of `deserialize_opt_ms` (src/src/common.rs lines 62-70): decode
an optional u64 millisecond count and `and_then` it through
`UNIX_EPOCH.checked_add`. -/
def deserialize_opt_ms (timeMax : Nat) (j : Json) : Except String (Option Nat) :=
  match optU64OfJson j with
  | .error e => .error e
  | .ok maybeMs => .ok (maybeMs.bind fun ms => checkedAddMillis timeMax ms)

/-- Model of `deserialize_ms` (src/src/common.rs lines 72-78):
`deserialize_opt_ms(..)?.unwrap_or(UNIX_EPOCH)`. -/
def deserialize_ms (timeMax : Nat) (j : Json) : Except String Nat :=
  match deserialize_opt_ms timeMax j with
  | .error e => .error e
  | .ok t => .ok (t.getD 0)

/-- Client state from src/src/client.rs (`struct Client<T>`); the
`http_client: T` field is passed to each operation as an explicit
transport argument instead. -/
structure Client where
  api_key : String
  account_id : Option String
  origin : String
deriving DecidableEq, Repr

namespace Events

/-- Events API version (src/src/events/mod.rs `enum ApiVersion`). -/
inductive ApiVersion where
  | V205
deriving DecidableEq, Repr

/-- Display impl for the events `ApiVersion`. -/
def ApiVersion.display : ApiVersion → String
  | .V205 => "v205"

/-- Optional properties of the Label event
(src/src/events/reserved_events.rs `struct LabelProperties`). -/
structure LabelProperties where
  description : Option String
  source : Option String
  analyst : Option String
  extra : Option Json

end Events

/-- Tagged union of reserved event kinds (src/src/events/reserved_events.rs
`enum Event`).  Only the `Label` variant is embedded: it is the sole
variant any claim constructs, and `Client::track` treats the event value
opaquely (it is serialized into the request body unchanged), so the
remaining schema-catalog variants are irrelevant to every claim. -/
inductive Event where
  | Label (is_fraud : Bool) (abuse_type : AbuseType) (properties : Events.LabelProperties)

/-- Per-call options for event tracking (src/src/events/mod.rs
`struct EventOptions`). -/
structure EventOptions where
  return_score : Option Bool := none
  abuse_types : Option (List AbuseType) := none
  return_action : Option Bool := none
  return_workflow_status : Option Bool := none
  timeout : Option Nat := none
  api_key : Option String := none
  version : Option Events.ApiVersion := none
  path : Option String := none

/-- Wire-shape query parameters of the events API (src/src/events/mod.rs
`struct EventQueryParams`). -/
structure EventQueryParams where
  return_score : Option Bool
  abuse_types : Option (List AbuseType)
  return_action : Option Bool
  return_workflow_status : Option Bool

/-- Conversion `From<EventOptions> for EventQueryParams`
(src/src/events/mod.rs lines 160-169). -/
def EventQueryParams.ofOptions (options : EventOptions) : EventQueryParams where
  return_score := options.return_score
  abuse_types := options.abuse_types
  return_action := options.return_action
  return_workflow_status := options.return_workflow_status

/-- Unified Sift API query params (src/src/client.rs `struct QueryParams`). -/
structure QueryParams where
  api_key : Option String := none
  return_score : Option Bool := none
  abuse_types : Option (List AbuseType) := none
  return_action : Option Bool := none
  return_workflow_status : Option Bool := none

/-- Custom field serializer `abuse_type_serialize` (src/src/common.rs
lines 41-59): a present list serializes as the comma-joined Display
strings of its entries; an absent list serializes as none. -/
def abuse_type_serialize : Option (List AbuseType) → Option String
  | some abuses => some (String.intercalate "," (abuses.map AbuseType.display))
  | none => none

/-- Rendering of a boolean query value by serde_urlencoded. -/
def boolQueryValue (b : Bool) : String := if b then "true" else "false"

/-- Model of serde_urlencoded serialization of `QueryParams` as key/value
pairs, in field declaration order: a `None` field is omitted (its key
does not appear), a `Some` field is present.  Percent-encoding of the
values is not modelled; no claim depends on it. -/
def QueryParams.pairs (q : QueryParams) : List (String × String) :=
  (match q.api_key with | some v => [("api_key", v)] | none => []) ++
  (match q.return_score with | some b => [("return_score", boolQueryValue b)] | none => []) ++
  (match abuse_type_serialize q.abuse_types with | some v => [("abuse_types", v)] | none => []) ++
  (match q.return_action with | some b => [("return_action", boolQueryValue b)] | none => []) ++
  (match q.return_workflow_status with | some b => [("return_workflow_status", boolQueryValue b)] | none => [])

/-- Conversion `From<EventQueryParams> for QueryParams` (src/src/client.rs
lines 649-666): the four event fields carry over, `api_key` stays `None`. -/
def QueryParams.ofEventQueryParams (eqp : EventQueryParams) : QueryParams where
  return_score := eqp.return_score
  abuse_types := eqp.abuse_types
  return_action := eqp.return_action
  return_workflow_status := eqp.return_workflow_status

/-- Reason entry inside an abuse score (src/src/events/mod.rs
`struct AbuseScoreReason`). -/
structure AbuseScoreReason where
  name : String
  value : String
  details : Option Json

/-- Computed score for one abuse type (src/src/events/mod.rs
`struct AbuseScore`).  The f32 `score` is carried opaquely; no claim
computes with it. -/
structure AbuseScore where
  score : Float
  reasons : List AbuseScoreReason

/-- Computed scores for all abuse types (src/src/events/mod.rs
`struct Scores`). -/
structure Scores where
  payment_abuse : Option AbuseScore
  promotion_abuse : Option AbuseScore
  account_abuse : Option AbuseScore
  account_takeover : Option AbuseScore
  content_abuse : Option AbuseScore

/-- Label entry applied to an entity (src/src/events/mod.rs
`struct Label`); `time` is a SystemTime, modelled as ms since epoch. -/
structure AppliedLabel where
  is_bad : Bool
  time : Nat
  description : Option String

/-- Latest labels per abuse type (src/src/events/mod.rs
`struct LatestLabels`). -/
structure LatestLabels where
  payment_abuse : Option AppliedLabel
  promotion_abuse : Option AppliedLabel
  account_abuse : Option AppliedLabel
  account_takeover : Option AppliedLabel
  content_abuse : Option AppliedLabel

/-- Score API response (src/src/score.rs `struct ScoreResponse`; an
identically-shaped duplicate sits in src/src/events/mod.rs and is the
type of `EventResponse.score_response` — the embedding uses the one
shared shape). -/
structure ScoreResponse where
  status : Int
  error_message : String
  scores : Option Scores
  entity_id : Option String := none
  entity_type : Option String := none
  latest_labels : Option LatestLabels := none
  latest_decisions : Option Json := none

/-- Events API response (src/src/events/mod.rs `struct EventResponse`):
an outer status/error pair and an optional nested score response. -/
structure EventResponse where
  status : Int
  error_message : String
  score_response : Option ScoreResponse

/-- Request issued by `Client::track`: URL, query params, JSON body with
the `$api_key` field injected (src/src/client.rs lines 81-96), timeout,
and basic-auth username (`None` for track). -/
structure TrackRequest where
  url : String
  query_params : QueryParams
  event : Event
  body_api_key : String
  timeout : Nat
  username : Option String := none

/-- Request construction of `Client::track` (src/src/client.rs lines
76-96): path defaults to `events`, version to `V205`, timeout to
`DEFAULT_TIMEOUT`; the body is the serialized event with `$api_key` set
to the option override or the client key. -/
def trackRequest (c : Client) (event : Event) (options : EventOptions) : TrackRequest where
  url := c.origin ++ "/" ++ (options.version.getD .V205).display ++ "/" ++ options.path.getD "events"
  query_params := QueryParams.ofEventQueryParams (EventQueryParams.ofOptions options)
  event := event
  body_api_key := options.api_key.getD c.api_key
  timeout := options.timeout.getD DEFAULT_TIMEOUT

/-- Response reconciliation of `Client::track` (src/src/client.rs lines
106-135).  The source is a Rust match: the first arm returns populated
nested scores; the second arm is the or-pattern
`EventResponse \x7b status, error_message, .. \x7d
| EventResponse \x7b score_response: Some(..), .. \x7d if status != 0`,
whose alternatives are tried left to right with the guard re-evaluated
per alternative — so a non-zero outer status is reported first, and the
nested status is consulted only when the outer status is zero; the final
wildcard arm succeeds with no score. -/
def eventResponseResult (resp : EventResponse) : Except Error (Option Scores) :=
  match resp.score_response with
  | some sr =>
    match sr.scores with
    | some scores => .ok (some scores)
    | none =>
      if resp.status ≠ 0 then .error (.Request resp.status resp.error_message)
      else if sr.status ≠ 0 then .error (.Request sr.status sr.error_message)
      else .ok none
  | none =>
    if resp.status ≠ 0 then .error (.Request resp.status resp.error_message)
    else .ok none

/-- Model of `Client::track` (src/src/client.rs lines 76-136).  The
transport argument stands for `HttpClient::post` composed with the
serde decoding of the body: it maps the issued request to a transport
error, no body (HTTP 204), or a decoded `EventResponse`. -/
def track (c : Client) (event : Event) (options : EventOptions)
    (http_post : TrackRequest → Except Error (Option EventResponse)) :
    Except Error (Option Scores) :=
  match http_post (trackRequest c event options) with
  | .error e => .error e
  | .ok none => .ok none
  | .ok (some resp) => eventResponseResult resp

/-- Per-call options for the score API (src/src/score.rs
`struct ScoreOptions`).  The field docs say `path_prefix` overrides the
URI path prefix and `path_suffix` the URI path suffix. -/
structure ScoreOptions where
  abuse_types : Option (List AbuseType) := none
  api_key : Option String := none
  timeout : Option Nat := none
  version : Option Events.ApiVersion := none
  path_prefix : Option String := none
  path_suffix : Option String := none

/-- Wire-shape query params of the score API (src/src/score.rs
`struct ScoreQueryParams`). -/
structure ScoreQueryParams where
  api_key : String
  abuse_types : Option (List AbuseType)

/-- Conversion `From<ScoreOptions> for ScoreQueryParams` (src/src/score.rs
lines 93-100): `api_key` is `unwrap_or_default`, the abuse types carry
over. -/
def ScoreQueryParams.ofOptions (opts : ScoreOptions) : ScoreQueryParams where
  api_key := opts.api_key.getD ""
  abuse_types := opts.abuse_types

/-- Conversion `From<ScoreQueryParams> for QueryParams` (src/src/client.rs
lines 668-681). -/
def QueryParams.ofScoreQueryParams (sqp : ScoreQueryParams) : QueryParams where
  api_key := some sqp.api_key
  abuse_types := sqp.abuse_types

/-- Request issued by `Client::get_user_score` and `Client::rescore_user`
(URL, query params, timeout; GET carries `username = None`). -/
structure ScoreRequest where
  url : String
  query_params : QueryParams
  timeout : Nat
  username : Option String := none

/-- Shared request construction of `Client::get_user_score`
(src/src/client.rs lines 150-163) and `Client::rescore_user` (lines
185-198); the two bodies are verbatim identical.  Note the source
computes BOTH path segments from `opts.path_prefix`:
`let path_prefix = opts.path_prefix.unwrap_or("users");`
`let path_suffix = opts.path_prefix.unwrap_or("score");`
so the `path_suffix` option field is never read.  Before converting the
options, `opts.api_key.get_or_insert_with(|| self.api_key.clone())`
defaults the api key to the client key. -/
def scoreRequest (c : Client) (user_id : String) (opts : ScoreOptions) : ScoreRequest :=
  match opts with
  | { abuse_types, api_key, timeout, version, path_prefix := pp, path_suffix := _ps } =>
    let effPrefix := pp.getD "users"
    let effSuffix := pp.getD "score"
    let url := c.origin ++ "/" ++ (version.getD .V205).display ++ "/" ++ effPrefix ++ "/" ++
      urlencode user_id ++ "/" ++ effSuffix
    let withKey : ScoreOptions :=
      { abuse_types, api_key := some (api_key.getD c.api_key), timeout, version,
        path_prefix := pp, path_suffix := _ps }
    { url := url
      query_params := QueryParams.ofScoreQueryParams (ScoreQueryParams.ofOptions withKey)
      timeout := timeout.getD DEFAULT_TIMEOUT }

/-- Model of `Client::get_user_score` (src/src/client.rs lines 142-174):
GET the score request, decode the body into a `ScoreResponse`.  The
transport argument stands for `HttpClient::get` composed with serde
decoding. -/
def get_user_score (c : Client) (user_id : String) (opts : ScoreOptions)
    (http_get : ScoreRequest → Except Error ScoreResponse) : Except Error ScoreResponse :=
  http_get (scoreRequest c user_id opts)

/-- Model of `Client::rescore_user` (src/src/client.rs lines 181-217):
POST the same request with no body; a missing response body is a hard
Server error. -/
def rescore_user (c : Client) (user_id : String) (opts : ScoreOptions)
    (http_post : ScoreRequest → Except Error (Option ScoreResponse)) :
    Except Error ScoreResponse :=
  match http_post (scoreRequest c user_id opts) with
  | .error e => .error e
  | .ok (some score_response) => .ok score_response
  | .ok none => .error (.Server "Expected a score, but received empty server response")

namespace Labels

/-- User-facing label details (src/src/labels.rs `struct LabelProperties`;
distinct from the event-schema `Events.LabelProperties`). -/
structure LabelProperties where
  is_fraud : Bool
  abuse_type : AbuseType
  description : Option String
  source : Option String
  analyst : Option String
  extra : Option Json

end Labels

/-- Per-call options for the label request (src/src/labels.rs
`struct LabelOptions`). -/
structure LabelOptions where
  timeout : Option Nat := none
  api_key : Option String := none
  version : Option Events.ApiVersion := none

/-- Conversion `From<LabelProperties> for Event` (src/src/labels.rs lines
97-119): build the `Label` event variant from the user-facing label
details. -/
def Event.ofLabelProperties (props : Labels.LabelProperties) : Event :=
  Event.Label props.is_fraud props.abuse_type
    { description := props.description
      source := props.source
      analyst := props.analyst
      extra := props.extra }

/-- Conversion `From<(LabelOptions, &str)> for EventOptions`
(src/src/labels.rs lines 134-150): carry api_key/timeout/version over,
set the path to `users/\x7buser_id\x7d/labels`, default the rest. -/
def EventOptions.ofLabelOptions (opts : LabelOptions) (user_id : String) : EventOptions where
  api_key := opts.api_key
  timeout := opts.timeout
  version := opts.version
  path := some ("users/" ++ user_id ++ "/labels")

/-- Model of `Client::label` (src/src/client.rs lines 227-241):
percent-encode the user id, call `track` with the converted event and
options, and discard the returned score. -/
def label (c : Client) (user_id : String) (properties : Labels.LabelProperties)
    (opts : LabelOptions) (http_post : TrackRequest → Except Error (Option EventResponse)) :
    Except Error Unit :=
  let formatted_id := urlencode user_id
  match track c (Event.ofLabelProperties properties) (EventOptions.ofLabelOptions opts formatted_id)
      http_post with
  | .error e => .error e
  | .ok _ => .ok ()

/-- Kind of reserved event being verified (src/src/events/reserved_fields.rs
`enum VerifiedEvent`). -/
inductive VerifiedEvent where
  | AddItemToCart
  | AddPromotion
  | ContentStatus
  | CreateAccount
  | CreateContent
  | CreateOrder
  | FlagContent
  | Login
  | OrderStatus
  | RemoveItemFromCart
  | Transaction
  | UpdateAccount
  | UpdateContent
  | UpdateOrder
  | UpdatePassword
deriving DecidableEq, Repr

namespace Verification

/-- Verification API version (src/src/verification.rs `enum ApiVersion`). -/
inductive ApiVersion where
  | V1
deriving DecidableEq, Repr

/-- Display impl for the verification `ApiVersion`. -/
def ApiVersion.display : ApiVersion → String
  | .V1 => "v1"

end Verification

/-- Options for `check_verification` (src/src/verification.rs
`struct CheckOptions`). -/
structure CheckOptions where
  verified_event : Option VerifiedEvent := none
  verified_entity_id : Option String := none
  timeout : Option Nat := none
  version : Option Verification.ApiVersion := none

/-- Body posted by `check_verification` (src/src/verification.rs
`struct CheckRequest`; the wire names carry a `$` prefix via serde
renames). -/
structure CheckRequest where
  user_id : String
  code : Nat
  verified_event : Option VerifiedEvent
  verified_entity_id : Option String
deriving DecidableEq, Repr

/-- Decoded response of `check_verification` (src/src/verification.rs
`struct CheckResponse`); `checked_at` is a SystemTime deserialized via
`deserialize_ms`, modelled as ms since epoch. -/
structure CheckResponse where
  status : Int
  error_message : String
  checked_at : Nat
deriving DecidableEq, Repr

/-- Decode a JSON i32 field value. -/
def i32OfJson : Json → Except String Int
  | .num n => if -2147483648 ≤ n ∧ n ≤ 2147483647 then .ok n else .error "invalid value: expected i32"
  | _ => .error "invalid type: expected i32"

/-- Decode a JSON string field value. -/
def stringOfJson : Json → Except String String
  | .str s => .ok s
  | _ => .error "invalid type: expected string"

/-- Serde-derived deserialization of `CheckResponse`: the three fields are
required (`checked_at` has a custom deserializer but no default, so a
missing field is an error; a null or out-of-range value is not, by
`deserialize_ms`). -/
def decodeCheckResponse (timeMax : Nat) (j : Json) : Except String CheckResponse :=
  match j.getField "status" with
  | none => .error "missing field status"
  | some sv =>
    match i32OfJson sv with
    | .error e => .error e
    | .ok status =>
      match j.getField "error_message" with
      | none => .error "missing field error_message"
      | some mv =>
        match stringOfJson mv with
        | .error e => .error e
        | .ok error_message =>
          match j.getField "checked_at" with
          | none => .error "missing field checked_at"
          | some cv =>
            match deserialize_ms timeMax cv with
            | .error e => .error e
            | .ok checked_at => .ok { status, error_message, checked_at }

/-- Request issued by the verification endpoints: URL, JSON body, timeout,
and basic-auth username (the client api key). -/
structure VerificationPostRequest where
  url : String
  body : CheckRequest
  timeout : Nat
  username : Option String

/-- Model of `Client::check_verification` (src/src/client.rs lines
357-416): build the request from the caller-supplied code and options,
POST it with basic auth, require a body, decode it, and map a non-zero
status to a Request error.  The transport argument stands for
`HttpClient::post`; decoding of the returned JSON happens here as in the
source. -/
def check_verification (c : Client) (user_id : String) (code : Nat) (opts : CheckOptions)
    (timeMax : Nat) (http_post : VerificationPostRequest → Except Error (Option Json)) :
    Except Error CheckResponse :=
  let req : CheckRequest :=
    { user_id, code
      verified_event := opts.verified_event
      verified_entity_id := opts.verified_entity_id }
  let timeout := opts.timeout.getD DEFAULT_TIMEOUT
  let api_version := opts.version.getD .V1
  let url := c.origin ++ "/" ++ api_version.display ++ "/verification/check"
  match http_post { url, body := req, timeout, username := some c.api_key } with
  | .error e => .error e
  | .ok none => .error (.Server "Expected a verification, but received empty server response")
  | .ok (some response_json) =>
    match decodeCheckResponse timeMax response_json with
    | .error e => .error (.Server e)
    | .ok resp =>
      if resp.status ≠ 0 then .error (.Request resp.status resp.error_message)
      else .ok resp

namespace Webhooks

/-- Webhook API version (src/src/webhooks.rs `enum ApiVersion`). -/
inductive ApiVersion where
  | V3
deriving DecidableEq, Repr

/-- Display impl for the webhook `ApiVersion`. -/
def ApiVersion.display : ApiVersion → String
  | .V3 => "v3"

/-- Webhook payload type (src/src/webhooks.rs `enum PayloadType`),
serialized as `ORDER_V1_0`. -/
inductive PayloadType where
  | OrderV10
deriving DecidableEq, Repr

/-- Webhook status (src/src/webhooks.rs `enum Status`), serialized
uppercase. -/
inductive Status where
  | Draft
  | Active
deriving DecidableEq, Repr

/-- Events a webhook can subscribe to (src/src/webhooks.rs
`enum EnabledEvent`), serialized with `$`-prefixed snake_case renames. -/
inductive EnabledEvent where
  | CreateOrder
  | UpdateOrder
  | OrderStatus
  | Transaction
  | Chargeback
deriving DecidableEq, Repr

end Webhooks

/-- Webhook creation request (src/src/webhooks.rs `struct WebhookRequest`). -/
structure WebhookRequest where
  payload_type : Webhooks.PayloadType
  status : Webhooks.Status
  url : String
  enabled_events : List Webhooks.EnabledEvent
  name : Option String
  description : Option String
deriving DecidableEq, Repr

/-- Webhook data (src/src/webhooks.rs `struct Webhook`); `created` and
`last_updated` are SystemTimes deserialized via `deserialize_ms`,
modelled as ms since epoch. -/
structure Webhook where
  id : Nat
  name : Option String
  description : Option String
  payload_type : Webhooks.PayloadType
  status : Webhooks.Status
  url : String
  enabled_events : List Webhooks.EnabledEvent
  created : Nat
  last_updated : Nat
deriving DecidableEq, Repr

/-- Wire name of a `PayloadType` value. -/
def Webhooks.PayloadType.wire : Webhooks.PayloadType → String
  | .OrderV10 => "ORDER_V1_0"

/-- Wire name of a webhook `Status` value. -/
def Webhooks.Status.wire : Webhooks.Status → String
  | .Draft => "DRAFT"
  | .Active => "ACTIVE"

/-- Wire name of an `EnabledEvent` value. -/
def Webhooks.EnabledEvent.wire : Webhooks.EnabledEvent → String
  | .CreateOrder => "$create_order"
  | .UpdateOrder => "$update_order"
  | .OrderStatus => "$order_status"
  | .Transaction => "$transaction"
  | .Chargeback => "$chargeback"

/-- Serde serialization of an optional string field without a skip
attribute: `None` becomes JSON null. -/
def jsonOfOptString : Option String → Json
  | some s => .str s
  | none => .null

/-- Serde serialization of a `WebhookRequest` (derive `Serialize`, no
skips): fields in declaration order, `None` rendered as null. -/
def encodeWebhookRequest (req : WebhookRequest) : Json :=
  .obj
    [("payload_type", .str req.payload_type.wire),
     ("status", .str req.status.wire),
     ("url", .str req.url),
     ("enabled_events", .arr (req.enabled_events.map fun e => .str e.wire)),
     ("name", jsonOfOptString req.name),
     ("description", jsonOfOptString req.description)]

/-- Serde serialization of a `Webhook` (derive `Serialize`): `created` and
`last_updated` carry `skip_serializing` and are omitted; the rest in
declaration order, `None` as null. -/
def encodeWebhook (w : Webhook) : Json :=
  .obj
    [("id", .num w.id),
     ("name", jsonOfOptString w.name),
     ("description", jsonOfOptString w.description),
     ("payload_type", .str w.payload_type.wire),
     ("status", .str w.status.wire),
     ("url", .str w.url),
     ("enabled_events", .arr (w.enabled_events.map fun e => .str e.wire))]

/-- Decode a JSON u64 field value. -/
def u64OfJson : Json → Except String Nat
  | .num n => if 0 ≤ n ∧ n ≤ 18446744073709551615 then .ok n.toNat else .error "invalid value: expected u64"
  | _ => .error "invalid type: expected u64"

/-- Decode an optional string field that may be absent or null (serde
treats `Option` fields as implicitly optional; `name` and `description`
additionally carry `#[serde(default)]`). -/
def optStringOfField : Option Json → Except String (Option String)
  | none => .ok none
  | some .null => .ok none
  | some (.str s) => .ok (some s)
  | some _ => .error "invalid type: expected string"

/-- Decode a `PayloadType` wire value. -/
def decodePayloadType : Json → Except String Webhooks.PayloadType
  | .str "ORDER_V1_0" => .ok .OrderV10
  | _ => .error "unknown variant: expected ORDER_V1_0"

/-- Decode a webhook `Status` wire value. -/
def decodeStatus : Json → Except String Webhooks.Status
  | .str "DRAFT" => .ok .Draft
  | .str "ACTIVE" => .ok .Active
  | _ => .error "unknown variant: expected DRAFT or ACTIVE"

/-- Decode an `EnabledEvent` wire value. -/
def decodeEnabledEvent : Json → Except String Webhooks.EnabledEvent
  | .str "$create_order" => .ok .CreateOrder
  | .str "$update_order" => .ok .UpdateOrder
  | .str "$order_status" => .ok .OrderStatus
  | .str "$transaction" => .ok .Transaction
  | .str "$chargeback" => .ok .Chargeback
  | _ => .error "unknown variant: expected an enabled event"

/-- Decode the `enabled_events` array. -/
def decodeEnabledEvents : Json → Except String (List Webhooks.EnabledEvent)
  | .arr elems => elems.mapM decodeEnabledEvent
  | _ => .error "invalid type: expected sequence"

/-- Access a required field of a JSON object. -/
def requiredField (j : Json) (key : String) : Except String Json :=
  match j.getField key with
  | some v => .ok v
  | none => .error ("missing field " ++ key)

/-- Serde-derived deserialization of `Webhook`: all fields required except
the `Option` fields `name`/`description`; `created`/`last_updated` go
through `deserialize_ms`. -/
def decodeWebhook (timeMax : Nat) (j : Json) : Except String Webhook := do
  let id ← u64OfJson (← requiredField j "id")
  let name ← optStringOfField (j.getField "name")
  let description ← optStringOfField (j.getField "description")
  let payload_type ← decodePayloadType (← requiredField j "payload_type")
  let status ← decodeStatus (← requiredField j "status")
  let url ← stringOfJson (← requiredField j "url")
  let enabled_events ← decodeEnabledEvents (← requiredField j "enabled_events")
  let created ← deserialize_ms timeMax (← requiredField j "created")
  let last_updated ← deserialize_ms timeMax (← requiredField j "last_updated")
  .ok { id, name, description, payload_type, status, url, enabled_events, created, last_updated }

/-- Untagged deserialization of the `Client` variant of `Error`:
`error` and `description` are required strings; `issues` defaults to
`None` when absent or null. -/
def decodeClientError (j : Json) : Except String Error := do
  let error ← stringOfJson (← requiredField j "error")
  let description ← stringOfJson (← requiredField j "description")
  let issues :=
    match j.getField "issues" with
    | none => none
    | some .null => none
    | some v => some v
  .ok (.Client error description issues)

/-- Untagged deserialization of the `Request` variant of `Error`. -/
def decodeRequestError (j : Json) : Except String Error := do
  let status ← i32OfJson (← requiredField j "status")
  let error_message ← stringOfJson (← requiredField j "error_message")
  .ok (.Request status error_message)

/-- Untagged deserialization of `Error` (src/src/error.rs, serde
`untagged`): variants are tried in declaration order `Client`,
`Request`, `Server` (the latter matching a bare JSON string). -/
def decodeError (j : Json) : Except String Error :=
  match decodeClientError j with
  | .ok e => .ok e
  | .error _ =>
    match decodeRequestError j with
    | .ok e => .ok e
    | .error _ =>
      match j with
      | .str s => .ok (.Server s)
      | _ => .error "data did not match any variant of untagged enum Error"

/-- Decoded list response of the webhook API (src/src/webhooks.rs
`enum WebhooksResponse`, serde `untagged`: `Error` tried first, then
`Webhooks \x7b data \x7d`). -/
inductive WebhooksResponse where
  | Error (e : Error)
  | Webhooks (data : List Webhook)

/-- Untagged deserialization of `WebhooksResponse`. -/
def decodeWebhooksResponse (timeMax : Nat) (j : Json) : Except String WebhooksResponse :=
  match decodeError j with
  | .ok e => .ok (.Error e)
  | .error _ =>
    match j.getField "data" with
    | none => .error "data did not match any variant of untagged enum WebhooksResponse"
    | some (.arr elems) =>
      match elems.mapM (decodeWebhook timeMax) with
      | .ok data => .ok (.Webhooks data)
      | .error _ => .error "data did not match any variant of untagged enum WebhooksResponse"
    | some _ => .error "data did not match any variant of untagged enum WebhooksResponse"

/-- Decoded single-webhook response (src/src/webhooks.rs
`enum WebhookResponse`, serde `untagged`: `Error` tried first). -/
inductive WebhookResponse where
  | Error (e : Error)
  | Webhook (w : Webhook)

/-- Untagged deserialization of `WebhookResponse`. -/
def decodeWebhookResponse (timeMax : Nat) (j : Json) : Except String WebhookResponse :=
  match decodeError j with
  | .ok e => .ok (.Error e)
  | .error _ =>
    match decodeWebhook timeMax j with
    | .ok w => .ok (.Webhook w)
    | .error _ => .error "data did not match any variant of untagged enum WebhookResponse"

/-- Transport interface for the webhook family, mirroring the four
`HttpClient` trait methods (src/src/client.rs lines 684-716): each takes
the URL, the query params / JSON body where the trait has them, the
timeout in ms, and the basic-auth username. -/
structure WebhookHttp where
  get : String → QueryParams → Nat → Option String → Except Error Json
  post : String → Option QueryParams → Option Json → Nat → Option String → Except Error (Option Json)
  put : String → Json → Nat → String → Except Error Json
  delete : String → Nat → String → Except Error Unit

/-- Model of `Client::create_webhook` (src/src/client.rs lines 426-457).
The second component counts transport invocations.  A missing
`account_id` fails with `Server "account id not specified"` before any
transport call; a missing response body is a Server error; otherwise the
body is decoded into a `Webhook`, decode failure collapsing to a Server
error as in the source via `From<serde_json::Error>`. -/
def create_webhook (c : Client) (req : WebhookRequest) (timeMax : Nat) (t : WebhookHttp) :
    Except Error Webhook × Nat :=
  match c.account_id with
  | none => (.error (.Server "account id not specified"), 0)
  | some account_id =>
    let url := c.origin ++ "/" ++ Webhooks.ApiVersion.V3.display ++ "/accounts/" ++ account_id ++
      "/webhooks"
    match t.post url none (some (encodeWebhookRequest req)) DEFAULT_TIMEOUT (some c.api_key) with
    | .error e => (.error e, 1)
    | .ok none => (.error (.Server "Expected a webhook, but received empty server response"), 1)
    | .ok (some response_json) =>
      match decodeWebhook timeMax response_json with
      | .error e => (.error (.Server e), 1)
      | .ok w => (.ok w, 1)

/-- Model of `Client::get_webhooks` (src/src/client.rs lines 467-494):
GET with default query params, decode the untagged list response. -/
def get_webhooks (c : Client) (timeMax : Nat) (t : WebhookHttp) :
    Except Error (List Webhook) × Nat :=
  match c.account_id with
  | none => (.error (.Server "account id not specified"), 0)
  | some account_id =>
    let url := c.origin ++ "/" ++ Webhooks.ApiVersion.V3.display ++ "/accounts/" ++ account_id ++
      "/webhooks"
    match t.get url {} DEFAULT_TIMEOUT (some c.api_key) with
    | .error e => (.error e, 1)
    | .ok response_json =>
      match decodeWebhooksResponse timeMax response_json with
      | .error e => (.error (.Server e), 1)
      | .ok (.Webhooks data) => (.ok data, 1)
      | .ok (.Error err) => (.error err, 1)

/-- Model of `Client::get_webhook` (src/src/client.rs lines 504-531):
GET one webhook by id, decode the untagged response. -/
def get_webhook (c : Client) (id : Nat) (timeMax : Nat) (t : WebhookHttp) :
    Except Error Webhook × Nat :=
  match c.account_id with
  | none => (.error (.Server "account id not specified"), 0)
  | some account_id =>
    let url := c.origin ++ "/" ++ Webhooks.ApiVersion.V3.display ++ "/accounts/" ++ account_id ++
      "/webhooks/" ++ toString id
    match t.get url {} DEFAULT_TIMEOUT (some c.api_key) with
    | .error e => (.error e, 1)
    | .ok response_json =>
      match decodeWebhookResponse timeMax response_json with
      | .error e => (.error (.Server e), 1)
      | .ok (.Webhook w) => (.ok w, 1)
      | .ok (.Error err) => (.error err, 1)

/-- Model of `Client::update_webhook` (src/src/client.rs lines 541-567):
PUT the serialized webhook at its id, decode the untagged response. -/
def update_webhook (c : Client) (webhook : Webhook) (timeMax : Nat) (t : WebhookHttp) :
    Except Error Webhook × Nat :=
  match c.account_id with
  | none => (.error (.Server "account id not specified"), 0)
  | some account_id =>
    let url := c.origin ++ "/" ++ Webhooks.ApiVersion.V3.display ++ "/accounts/" ++ account_id ++
      "/webhooks/" ++ toString webhook.id
    match t.put url (encodeWebhook webhook) DEFAULT_TIMEOUT c.api_key with
    | .error e => (.error e, 1)
    | .ok response_json =>
      match decodeWebhookResponse timeMax response_json with
      | .error e => (.error (.Server e), 1)
      | .ok (.Webhook w) => (.ok w, 1)
      | .ok (.Error err) => (.error err, 1)

/-- Model of `Client::delete_webhook` (src/src/client.rs lines 577-594):
DELETE the webhook by id. -/
def delete_webhook (c : Client) (id : Nat) (t : WebhookHttp) : Except Error Unit × Nat :=
  match c.account_id with
  | none => (.error (.Server "account id not specified"), 0)
  | some account_id =>
    let url := c.origin ++ "/" ++ Webhooks.ApiVersion.V3.display ++ "/accounts/" ++ account_id ++
      "/webhooks/" ++ toString id
    match t.delete url DEFAULT_TIMEOUT c.api_key with
    | .error e => (.error e, 1)
    | .ok () => (.ok (), 1)

/-- Debug rendering of a string: quoted.  The character escaping Rust
applies inside the quotes is elided; every value a claim exercises is
plain ASCII without quotes or backslashes. -/
def debugString (s : String) : String := "\"" ++ s ++ "\""

/-- Debug rendering of an `Option<String>` value. -/
def debugOptionString : Option String → String
  | some s => "Some(" ++ debugString s ++ ")"
  | none => "None"

/-- Model of `impl fmt::Debug for Client` (src/src/client.rs lines
609-617): the struct formatter prints the fields `api_key`,
`account_id`, `origin` in that order, with the api_key field value
replaced by the literal string `****`. -/
def clientDebugFmt (c : Client) : String :=
  "Client \x7b api_key: " ++ debugString "****" ++ ", account_id: " ++
    debugOptionString c.account_id ++ ", origin: " ++ debugString c.origin ++ " \x7d"

/-- Event options that the specification says `Client::label` passes to
`track`: the label options' api_key/timeout/version carried over, the
path set to `users/\x7bpercent-encoded user id\x7d/labels`, everything
else defaulted.  Written from the spec sentence for the refinement claim
about `label`; to be compared with the composition the source performs. -/
def labelTrackEventOptionsSpec (opts : LabelOptions) (user_id : String) : EventOptions where
  api_key := opts.api_key
  timeout := opts.timeout
  version := opts.version
  path := some ("users/" ++ urlencode user_id ++ "/labels")

/-- C2: for every track-event call whose decoded response body has outer
status 0 but a nested score response with non-zero status and no
populated scores, the call fails with a Request error carrying the inner
status and error message. -/
theorem track_inner_status_error (c : Client) (event : Event) (options : EventOptions)
    (resp : EventResponse) (sr : ScoreResponse)
    (hsr : resp.score_response = some sr) (houter : resp.status = 0)
    (hinner : sr.status ≠ 0) (hscores : sr.scores = none) :
    track c event options (fun _ => .ok (some resp)) =
      .error (.Request sr.status sr.error_message) := by
  simp [track, eventResponseResult, hsr, houter, hinner, hscores]

/-- Witness for C2 at a concrete response body. -/
theorem track_inner_status_error_witness :
    track ⟨"key", none, "https://api.sift.com"⟩
        (Event.Label false .PaymentAbuse ⟨none, none, none, none⟩) {}
        (fun _ => .ok (some ⟨0, "", some ⟨3, "inner bad", none, none, none, none, none⟩⟩)) =
      .error (.Request 3 "inner bad") :=
  track_inner_status_error _ _ _ _ _ rfl rfl (by decide) rfl

/-- C3: for every track-event call whose decoded response body carries a
nested score response with a populated scores value, the call succeeds
with exactly that scores value, regardless of the outer and inner status
fields. -/
theorem track_populated_scores (c : Client) (event : Event) (options : EventOptions)
    (resp : EventResponse) (sr : ScoreResponse) (scores : Scores)
    (hsr : resp.score_response = some sr) (hscores : sr.scores = some scores) :
    track c event options (fun _ => .ok (some resp)) = .ok (some scores) := by
  simp [track, eventResponseResult, hsr, hscores]

/-- Witness for C3: both statuses are non-zero, yet the populated scores
win. -/
theorem track_populated_scores_witness :
    track ⟨"key", none, "https://api.sift.com"⟩
        (Event.Label false .PaymentAbuse ⟨none, none, none, none⟩) {}
        (fun _ => .ok (some ⟨1, "outer",
          some ⟨2, "inner", some ⟨none, none, none, none, none⟩, none, none, none, none⟩⟩)) =
      .ok (some ⟨none, none, none, none, none⟩) :=
  track_populated_scores _ _ _ _ _ _ rfl rfl

/-- C1 counterexample: for a decoded body whose outer status is 1 with
message `outer` and whose nested score response has status 2 with
message `inner` and no scores, the call returns the OUTER status and
message, not the inner ones the claim asserts. -/
theorem track_inner_preference_cex :
    track ⟨"key", none, "https://api.sift.com"⟩
        (Event.Label false .PaymentAbuse ⟨none, none, none, none⟩) {}
        (fun _ => .ok (some ⟨1, "outer", some ⟨2, "inner", none, none, none, none, none⟩⟩)) =
      .error (.Request 1 "outer") ∧
    track ⟨"key", none, "https://api.sift.com"⟩
        (Event.Label false .PaymentAbuse ⟨none, none, none, none⟩) {}
        (fun _ => .ok (some ⟨1, "outer", some ⟨2, "inner", none, none, none, none, none⟩⟩)) ≠
      .error (.Request 2 "inner") := by
  refine ⟨rfl, fun h => ?_⟩
  rw [show track ⟨"key", none, "https://api.sift.com"⟩
        (Event.Label false .PaymentAbuse ⟨none, none, none, none⟩) {}
        (fun _ => .ok (some ⟨1, "outer", some ⟨2, "inner", none, none, none, none, none⟩⟩)) =
      .error (.Request 1 "outer") from rfl] at h
  injection h with h1
  injection h1 with h2 h3
  exact absurd h2 (by decide)

/-- C1 amended: for every track-event call whose decoded response body
has a non-zero OUTER status and no populated scores, the returned
Request error carries the outer status and error message; the inner pair
is consulted only when the outer status is 0. -/
theorem track_outer_status_error (c : Client) (event : Event) (options : EventOptions)
    (resp : EventResponse) (houter : resp.status ≠ 0)
    (hscores : ∀ sr, resp.score_response = some sr → sr.scores = none) :
    track c event options (fun _ => .ok (some resp)) =
      .error (.Request resp.status resp.error_message) := by
  cases h : resp.score_response with
  | none => simp [track, eventResponseResult, h, houter]
  | some sr => simp [track, eventResponseResult, h, houter, hscores sr h]

/-- Witness for the amended C1 at a concrete response body with both
statuses non-zero. -/
theorem track_outer_status_error_witness :
    track ⟨"key", none, "https://api.sift.com"⟩
        (Event.Label false .PaymentAbuse ⟨none, none, none, none⟩) {}
        (fun _ => .ok (some ⟨1, "outer", some ⟨2, "inner", none, none, none, none, none⟩⟩)) =
      .error (.Request 1 "outer") :=
  track_outer_status_error _ _ _ _ (by decide)
    (fun sr h => by cases h; rfl)

/-- C4: evaluation of the score request construction at a concrete input
exhibiting the divergence: with `path_suffix = Some "rescore"` and
`path_prefix` unset, the URL still ends in the default `score` segment,
because the source reads `opts.path_prefix` for both segments and never
reads `path_suffix`. -/
theorem score_request_ignores_path_suffix :
    (scoreRequest ⟨"key", none, "https://api.sift.com"⟩ "u1"
        { path_suffix := some "rescore" }).url =
      "https://api.sift.com/v205/users/u1/score" ∧
    (scoreRequest ⟨"key", none, "https://api.sift.com"⟩ "u1"
        { path_suffix := some "rescore" }).url ≠
      "https://api.sift.com/v205/users/u1/rescore" := by
  constructor
  · decide
  · decide

/-- C5: every webhook operation invoked on a client without an account id
returns the local configuration error `Server "account id not
specified"` with zero transport invocations, for every transport. -/
theorem webhook_ops_require_account_id (c : Client) (hacc : c.account_id = none)
    (req : WebhookRequest) (id : Nat) (webhook : Webhook) (timeMax : Nat) (t : WebhookHttp) :
    create_webhook c req timeMax t = (.error (.Server "account id not specified"), 0) ∧
    get_webhooks c timeMax t = (.error (.Server "account id not specified"), 0) ∧
    get_webhook c id timeMax t = (.error (.Server "account id not specified"), 0) ∧
    update_webhook c webhook timeMax t = (.error (.Server "account id not specified"), 0) ∧
    delete_webhook c id t = (.error (.Server "account id not specified"), 0) := by
  refine ⟨?_, ?_, ?_, ?_, ?_⟩ <;>
    simp [create_webhook, get_webhooks, get_webhook, update_webhook, delete_webhook, hacc]

/-- Witness for C5 at a concrete client, request, webhook and transport. -/
theorem webhook_ops_require_account_id_witness :
    create_webhook ⟨"key", none, "https://api.sift.com"⟩
        ⟨.OrderV10, .Active, "https://example.com/hook", [], none, none⟩ 0
        ⟨fun _ _ _ _ => .error (.Server "unused"), fun _ _ _ _ _ => .ok none,
         fun _ _ _ _ => .error (.Server "unused"), fun _ _ _ => .ok ()⟩ =
      (.error (.Server "account id not specified"), 0) ∧
    get_webhooks ⟨"key", none, "https://api.sift.com"⟩ 0
        ⟨fun _ _ _ _ => .error (.Server "unused"), fun _ _ _ _ _ => .ok none,
         fun _ _ _ _ => .error (.Server "unused"), fun _ _ _ => .ok ()⟩ =
      (.error (.Server "account id not specified"), 0) ∧
    get_webhook ⟨"key", none, "https://api.sift.com"⟩ 7 0
        ⟨fun _ _ _ _ => .error (.Server "unused"), fun _ _ _ _ _ => .ok none,
         fun _ _ _ _ => .error (.Server "unused"), fun _ _ _ => .ok ()⟩ =
      (.error (.Server "account id not specified"), 0) ∧
    update_webhook ⟨"key", none, "https://api.sift.com"⟩
        ⟨1, none, none, .OrderV10, .Active, "https://example.com/hook", [], 0, 0⟩ 0
        ⟨fun _ _ _ _ => .error (.Server "unused"), fun _ _ _ _ _ => .ok none,
         fun _ _ _ _ => .error (.Server "unused"), fun _ _ _ => .ok ()⟩ =
      (.error (.Server "account id not specified"), 0) ∧
    delete_webhook ⟨"key", none, "https://api.sift.com"⟩ 7
        ⟨fun _ _ _ _ => .error (.Server "unused"), fun _ _ _ _ _ => .ok none,
         fun _ _ _ _ => .error (.Server "unused"), fun _ _ _ => .ok ()⟩ =
      (.error (.Server "account id not specified"), 0) :=
  webhook_ops_require_account_id ⟨"key", none, "https://api.sift.com"⟩ rfl
    ⟨.OrderV10, .Active, "https://example.com/hook", [], none, none⟩ 7
    ⟨1, none, none, .OrderV10, .Active, "https://example.com/hook", [], 0, 0⟩ 0
    ⟨fun _ _ _ _ => .error (.Server "unused"), fun _ _ _ _ _ => .ok none,
     fun _ _ _ _ => .error (.Server "unused"), fun _ _ _ => .ok ()⟩

/-- C6 counterexample: an EMPTY abuse-type list does not omit the
parameter; it serializes as the key `abuse_types` mapped to the empty
string (`serialize_some` of the empty join). -/
theorem abuse_types_empty_list_cex :
    (QueryParams.pairs { abuse_types := some [] }).lookup "abuse_types" = some "" ∧
    (QueryParams.pairs { abuse_types := some [] }).lookup "abuse_types" ≠ none := by
  constructor
  · decide
  · decide

/-- C6 amended: a present abuse-type list (of any length) serializes as
the comma-joined lowercase snake_case names in list order under the key
abuse_types; an absent (None) list omits the parameter entirely; by the
first part at the empty list, an empty list yields the parameter present
with an empty string value. -/
theorem abuse_types_serialization (q : QueryParams) :
    (∀ l, q.abuse_types = some l →
      (QueryParams.pairs q).lookup "abuse_types" =
        some (String.intercalate "," (l.map AbuseType.display))) ∧
    (q.abuse_types = none → (QueryParams.pairs q).lookup "abuse_types" = none) := by
  obtain ⟨ak, rs, ab, ra, rw⟩ := q
  constructor
  · intro l hl
    cases hl
    cases ak <;> cases rs <;> cases ra <;> cases rw <;>
      simp [QueryParams.pairs, abuse_type_serialize, List.lookup]
  · intro hl
    cases hl
    cases ak <;> cases rs <;> cases ra <;> cases rw <;>
      simp [QueryParams.pairs, abuse_type_serialize, List.lookup]

/-- Witness for the amended C6 at a two-element list, giving the joined
value the spec example names. -/
theorem abuse_types_serialization_witness :
    (QueryParams.pairs { abuse_types := some [AbuseType.PaymentAbuse, AbuseType.PromoAbuse] }).lookup
        "abuse_types" = some "payment_abuse,promo_abuse" :=
  (abuse_types_serialization { abuse_types := some [.PaymentAbuse, .PromoAbuse] }).1
    [.PaymentAbuse, .PromoAbuse] rfl

/-- C7: check_verification of user-1 with code 123456 and default options
against a transport returning status 0, empty message and checked_at
1700000000000 succeeds with checked_at equal to the epoch plus
1700000000000 ms (the epoch is 0 in the ms-offset model of SystemTime). -/
theorem check_verification_checked_at (c : Client) (timeMax : Nat)
    (h : 1700000000000 ≤ timeMax) :
    check_verification c "user-1" 123456 {} timeMax
        (fun _ => .ok (some (.obj [("status", .num 0), ("error_message", .str ""),
          ("checked_at", .num 1700000000000)]))) =
      .ok { status := 0, error_message := "", checked_at := 0 + 1700000000000 } := by
  simp [check_verification, decodeCheckResponse, Json.getField, List.lookup, i32OfJson,
    stringOfJson, deserialize_ms, deserialize_opt_ms, optU64OfJson, checkedAddMillis, h]

/-- Witness for C7 with the platform bound instantiated. -/
theorem check_verification_checked_at_witness :
    check_verification ⟨"key", none, "https://api.sift.com"⟩ "user-1" 123456 {}
        9223372036854775807
        (fun _ => .ok (some (.obj [("status", .num 0), ("error_message", .str ""),
          ("checked_at", .num 1700000000000)]))) =
      .ok { status := 0, error_message := "", checked_at := 0 + 1700000000000 } :=
  check_verification_checked_at ⟨"key", none, "https://api.sift.com"⟩ 9223372036854775807
    (by decide)

/-- C8: label is observationally the composition the spec describes —
calling track with the Label event built from the properties and the
event options carrying the label options' api_key/timeout/version and
the path `users/\x7bpercent-encoded user id\x7d/labels`, with the
returned score discarded; it shares the transport with that track call
and succeeds exactly when it does. -/
theorem label_refines_track (c : Client) (user_id : String)
    (properties : Labels.LabelProperties) (opts : LabelOptions)
    (http_post : TrackRequest → Except Error (Option EventResponse)) :
    label c user_id properties opts http_post =
      Except.map (fun _ => ())
        (track c (Event.ofLabelProperties properties)
          (labelTrackEventOptionsSpec opts user_id) http_post) := by
  have harg : EventOptions.ofLabelOptions opts (urlencode user_id) =
      labelTrackEventOptionsSpec opts user_id := rfl
  simp only [label, harg]
  cases track c (Event.ofLabelProperties properties)
      (labelTrackEventOptionsSpec opts user_id) http_post <;> rfl

/-- C9: the shared millisecond deserializer maps JSON null and any count
above the platform bound to the epoch instead of erroring, and hence so
do the required timestamp fields CheckResponse.checked_at (shown at
null), Webhook.created (shown at null) and Webhook.last_updated (shown
above the bound). -/
theorem required_ms_fields_lenient (timeMax ms : Nat) (hms : timeMax < ms) :
    deserialize_ms timeMax Json.null = .ok 0 ∧
    deserialize_ms timeMax (.num ms) = .ok 0 ∧
    decodeCheckResponse timeMax (.obj [("status", .num 0), ("error_message", .str ""),
        ("checked_at", .null)]) =
      .ok { status := 0, error_message := "", checked_at := 0 } ∧
    decodeWebhook timeMax (.obj [("id", .num 1), ("payload_type", .str "ORDER_V1_0"),
        ("status", .str "ACTIVE"), ("url", .str "https://example.com"),
        ("enabled_events", .arr []), ("created", .null), ("last_updated", .num ms)]) =
      .ok { id := 1, name := none, description := none, payload_type := .OrderV10,
            status := .Active, url := "https://example.com", enabled_events := [],
            created := 0, last_updated := 0 } := by
  have hnle : ¬ ms ≤ timeMax := Nat.not_le.mpr hms
  refine ⟨rfl, ?_, ?_, ?_⟩
  · simp [deserialize_ms, deserialize_opt_ms, optU64OfJson, checkedAddMillis, hnle]
  · simp [decodeCheckResponse, Json.getField, List.lookup, i32OfJson, stringOfJson,
      deserialize_ms, deserialize_opt_ms, optU64OfJson, checkedAddMillis]
  · simp [decodeWebhook, requiredField, Json.getField, List.lookup, u64OfJson,
      optStringOfField, decodePayloadType, decodeStatus, stringOfJson, decodeEnabledEvents,
      deserialize_ms, deserialize_opt_ms, optU64OfJson, checkedAddMillis, hnle, bind,
      Except.bind, pure, Except.pure, List.mapM, List.mapM.loop, Int.toNat_natCast]

/-- Witness for C9 with the platform bound and an offset just above it. -/
theorem required_ms_fields_lenient_witness :
    deserialize_ms 9223372036854775807 Json.null = .ok 0 ∧
    deserialize_ms 9223372036854775807 (.num 9223372036854775808) = .ok 0 ∧
    decodeCheckResponse 9223372036854775807 (.obj [("status", .num 0),
        ("error_message", .str ""), ("checked_at", .null)]) =
      .ok { status := 0, error_message := "", checked_at := 0 } ∧
    decodeWebhook 9223372036854775807 (.obj [("id", .num 1),
        ("payload_type", .str "ORDER_V1_0"), ("status", .str "ACTIVE"),
        ("url", .str "https://example.com"), ("enabled_events", .arr []),
        ("created", .null), ("last_updated", .num 9223372036854775808)]) =
      .ok { id := 1, name := none, description := none, payload_type := .OrderV10,
            status := .Active, url := "https://example.com", enabled_events := [],
            created := 0, last_updated := 0 } :=
  required_ms_fields_lenient 9223372036854775807 9223372036854775808 (by decide)

/-- C10: the Debug output of Client does not depend on the api_key (two
clients agreeing on account_id and origin format identically), and the
api_key field is always rendered as the fixed mask string. -/
theorem client_debug_hides_api_key (c1 c2 : Client)
    (hacc : c1.account_id = c2.account_id) (horig : c1.origin = c2.origin) :
    clientDebugFmt c1 = clientDebugFmt c2 ∧
    ∃ rest, clientDebugFmt c1 = "Client \x7b api_key: \"****\", account_id: " ++ rest := by
  constructor
  · simp [clientDebugFmt, hacc, horig]
  · refine ⟨debugOptionString c1.account_id ++ ", origin: " ++ debugString c1.origin ++
      " \x7d", ?_⟩
    have hlit : "Client \x7b api_key: \"****\", account_id: " =
        "Client \x7b api_key: " ++ debugString "****" ++ ", account_id: " := by decide
    rw [hlit]
    simp [clientDebugFmt, String.append_assoc]

/-- Witness for C10 at two concrete clients differing only in api_key. -/
theorem client_debug_hides_api_key_witness :
    clientDebugFmt ⟨"secret-key-1", some "acct", "https://api.sift.com"⟩ =
      clientDebugFmt ⟨"different-key-2", some "acct", "https://api.sift.com"⟩ ∧
    ∃ rest, clientDebugFmt ⟨"secret-key-1", some "acct", "https://api.sift.com"⟩ =
      "Client \x7b api_key: \"****\", account_id: " ++ rest :=
  client_debug_hides_api_key ⟨"secret-key-1", some "acct", "https://api.sift.com"⟩
    ⟨"different-key-2", some "acct", "https://api.sift.com"⟩ rfl rfl
